import Mathlib

/-!
Shallow embedding of the fog projector animation engine
(`fog_projector_v2.py`, class `ProjectorV2`, and the earlier
`fog_projector.py`, class `ProjectorVisuals`).

Numeric state that Python stores in floats is embedded as `ℚ` (all the
constants in the source are decimal literals, so every update rule is exact
rational arithmetic); the trigonometric point transforms of the physics
modifier are embedded over `ℝ`.  Python's `%` on integers is `Int.emod`,
which has the same sign convention; `x % 1.0` on a float is the fractional
part `x - ⌊x⌋`.
-/

namespace Fog

/-- Constant `MAX_LAYERS` of `fog_projector_v2.py`. -/
def MAX_LAYERS : Nat := 60

/-- Constant `LAYER_SPACING_RATIO` of `fog_projector_v2.py` (0.92);
shortened name. -/
def SPACING_V2 : ℚ := 0.92

/-- Constant `LAYER_SPACING_RATIO` of `fog_projector.py` (0.85);
shortened name. -/
def SPACING_V1 : ℚ := 0.85

/-- The `self.features` dictionary of `ProjectorV2.__init__`: feature
toggles and small mode selectors. -/
structure Features where
  parallax : Bool
  breathing : Bool
  color_mode : Nat
  motion_mode : Nat
  trails : Bool
  physics : Nat
  chaos : Bool
  show_hud : Bool
deriving DecidableEq

/-- One entry of the `self.params` knob table: value, step and declared
bounds (`min`/`max` in the source). -/
structure Knob where
  val : ℚ
  step : ℚ
  min : ℚ
  max : ℚ
deriving DecidableEq

/-- The `self.params` dictionary: one knob per feature key. -/
structure Params where
  parallax : Knob
  breathing : Knob
  color_mode : Knob
  motion_mode : Knob
  trails : Knob
  physics : Knob
  chaos : Knob
deriving DecidableEq

/-- The keys of `self.params`; `self.last_toggled` ranges over these. -/
inductive KnobId
  | parallax | breathing | color_mode | motion_mode | trails | physics | chaos
deriving DecidableEq

/-- Dictionary lookup `self.params[key]`. -/
def getParam (p : Params) : KnobId → Knob
  | .parallax => p.parallax
  | .breathing => p.breathing
  | .color_mode => p.color_mode
  | .motion_mode => p.motion_mode
  | .trails => p.trails
  | .physics => p.physics
  | .chaos => p.chaos

/-- Dictionary write `self.params[key] = k`. -/
def setParam (p : Params) (id : KnobId) (k : Knob) : Params :=
  match id with
  | .parallax => { p with parallax := k }
  | .breathing => { p with breathing := k }
  | .color_mode => { p with color_mode := k }
  | .motion_mode => { p with motion_mode := k }
  | .trails => { p with trails := k }
  | .physics => { p with physics := k }
  | .chaos => { p with chaos := k }

/-- The configuration-field bundle captured by `ProjectorV2.get_state`:
exactly the keys of the returned dictionary. -/
structure Config where
  shape_index : ℤ
  num_layers : Nat
  thickness : Nat
  twist : ℚ
  features : Features
  params : Params
  hue : ℚ
deriving DecidableEq

/-- The mutable fields of `ProjectorV2` that the claims touch:
the configuration fields plus `base_rotation`, `last_toggled`, the
waypoint list and the waypoint cursor (`current_waypoint_idx`, which
starts at −1, hence `ℤ`). -/
structure State where
  shape_index : ℤ
  num_layers : Nat
  thickness : Nat
  base_rotation : ℚ
  twist : ℚ
  hue : ℚ
  features : Features
  params : Params
  last_toggled : KnobId
  waypoints : List Config
  cursor : ℤ
deriving DecidableEq

/-- The `self.shapes` registry list. -/
def shapes : List String :=
  ["Triangle", "Square", "Pentagon", "Astroid", "SineFlower",
   "Circle", "Star5", "StarDavid", "Triskelion", "Brackets",
   "Lissajous", "Hypotrochoid", "NoiseRing", "Calligraphy"]

/-- Method `ProjectorV2.get_state`: snapshot of the configuration fields
(`features.copy()` / `deepcopy(params)` become plain value copies here;
the aliasing behaviour of the copies is modelled separately by the heap
embedding below). -/
def get_state (s : State) : Config :=
  { shape_index := s.shape_index
    num_layers := s.num_layers
    thickness := s.thickness
    twist := s.twist
    features := s.features
    params := s.params
    hue := s.hue }

/-- Method `ProjectorV2.set_state`: restore the configuration fields from a
snapshot.  `base_rotation`, `last_toggled`, the waypoint list and the
cursor are untouched, exactly as in the source. -/
def set_state (c : Config) (s : State) : State :=
  { s with
    shape_index := c.shape_index
    num_layers := c.num_layers
    thickness := c.thickness
    twist := c.twist
    features := c.features
    params := c.params
    hue := c.hue }

/-- Method `ProjectorV2.load_preset`.  Each branch assigns exactly the fields the
source assigns; any other field keeps its previous value.  Unknown names
fall through to the unchanged state. -/
def load_preset (name : String) (s : State) : State :=
  if name = "Cathedral" then
    { s with
      shape_index := 9
      features := { s.features with color_mode := 3, motion_mode := 0, physics := 0 }
      twist := 0
      num_layers := 20
      hue := 0.1 }
  else if name = "Galactic" then
    { s with
      shape_index := 8
      features := { s.features with motion_mode := 1, physics := 1, trails := true }
      twist := 0.1
      num_layers := 15 }
  else if name = "Jelly" then
    { s with
      shape_index := 4
      features := { s.features with breathing := true, color_mode := 2, motion_mode := 3 }
      twist := 0.01
      num_layers := 12 }
  else if name = "Crystal" then
    { s with
      shape_index := 3
      features := { s.features with parallax := true, color_mode := 1 }
      twist := 0.05
      num_layers := 25 }
  else if name = "Default" then
    { s with
      shape_index := 0
      features :=
        { parallax := false, breathing := false, color_mode := 0, motion_mode := 0
          trails := false, physics := 0, chaos := false, show_hud := false }
      twist := 0.02
      num_layers := 16 }
  else s

/-- The initial `self.features` dictionary. -/
def feat0 : Features :=
  { parallax := false, breathing := false, color_mode := 0, motion_mode := 0
    trails := false, physics := 0, chaos := false, show_hud := false }

/-- The initial `self.params` knob table. -/
def params0 : Params :=
  { parallax := { val := 20, step := 1, min := 0, max := 100 }
    breathing := { val := 2, step := 0.1, min := 0.1, max := 10 }
    color_mode := { val := 0.002, step := 0.0002, min := 0, max := 0.05 }
    motion_mode := { val := 1, step := 0.1, min := 0, max := 5 }
    trails := { val := 20, step := 5, min := 0, max := 255 }
    physics := { val := 0.01, step := 0.001, min := 0, max := 0.1 }
    chaos := { val := 0.1, step := 0.01, min := 0, max := 1 } }

/-- The state built by `ProjectorV2.__init__`. -/
def initState : State :=
  { shape_index := 0
    num_layers := 16
    thickness := 3
    base_rotation := 0
    twist := 0.02
    hue := 0
    features := feat0
    params := params0
    last_toggled := .color_mode
    waypoints := []
    cursor := -1 }

/-- Fallback snapshot for the (never reached under the cursor invariant)
out-of-range list reads. -/
def cfg0 : Config := get_state initState

/-- The key events handled by `ProjectorV2.handle_input` that mutate the
embedded state.  The throttled arrow keys are modelled as the events that
fire once the cooldown has elapsed. -/
inductive Event
  | space
  | shapeDec | shapeInc
  | keyZ | keyX | keyC | keyV | keyB | keyN | keyM | keyI
  | keyJ | keyH | keyK | keyL | keyG
  | key1 | key2 | key3 | key4 | key5
  | keyQ | keyW | keyA | keyS
  | twistL | twistR | knobUp | knobDown

/-- One `KEYDOWN` / throttled-hold branch of `ProjectorV2.handle_input`. -/
def step (e : Event) (s : State) : State :=
  match e with
  | .space => { s with base_rotation := 0 }
  | .shapeDec => { s with shape_index := (s.shape_index - 1) % (shapes.length : ℤ) }
  | .shapeInc => { s with shape_index := (s.shape_index + 1) % (shapes.length : ℤ) }
  | .keyZ =>
      { s with features := { s.features with parallax := !s.features.parallax }
               last_toggled := .parallax }
  | .keyX =>
      { s with features := { s.features with breathing := !s.features.breathing }
               last_toggled := .breathing }
  | .keyC =>
      { s with features := { s.features with color_mode := (s.features.color_mode + 1) % 4 }
               last_toggled := .color_mode }
  | .keyV =>
      { s with features := { s.features with motion_mode := (s.features.motion_mode + 1) % 5 }
               last_toggled := .motion_mode }
  | .keyB =>
      { s with features := { s.features with trails := !s.features.trails }
               last_toggled := .trails }
  | .keyN =>
      { s with features := { s.features with physics := (s.features.physics + 1) % 3 }
               last_toggled := .physics }
  | .keyM =>
      { s with features := { s.features with chaos := !s.features.chaos }
               last_toggled := .chaos }
  | .keyI =>
      { s with features := { s.features with show_hud := !s.features.show_hud } }
  | .keyJ =>
      let w := s.waypoints ++ [get_state s]
      { s with waypoints := w, cursor := (w.length : ℤ) - 1 }
  | .keyH =>
      if s.waypoints ≠ [] ∧ 0 ≤ s.cursor then
        { s with waypoints := s.waypoints.set s.cursor.toNat (get_state s) }
      else s
  | .keyK =>
      if s.waypoints = [] then s
      else
        let i := (s.cursor - 1) % (s.waypoints.length : ℤ)
        set_state (s.waypoints.getD i.toNat cfg0) { s with cursor := i }
  | .keyL =>
      if s.waypoints = [] then s
      else
        let i := (s.cursor + 1) % (s.waypoints.length : ℤ)
        set_state (s.waypoints.getD i.toNat cfg0) { s with cursor := i }
  | .keyG =>
      if s.waypoints = [] then s
      else
        let w := s.waypoints.dropLast
        let i := (w.length : ℤ) - 1
        if 0 ≤ i then
          set_state (w.getD i.toNat cfg0) { s with waypoints := w, cursor := i }
        else
          { s with waypoints := w, cursor := i }
  | .key1 => load_preset "Cathedral" s
  | .key2 => load_preset "Galactic" s
  | .key3 => load_preset "Jelly" s
  | .key4 => load_preset "Crystal" s
  | .key5 => load_preset "Default" s
  | .keyQ => { s with num_layers := max 1 (s.num_layers - 1) }
  | .keyW => { s with num_layers := min MAX_LAYERS (s.num_layers + 1) }
  | .keyA => { s with thickness := max 1 (s.thickness - 1) }
  | .keyS => { s with thickness := min 40 (s.thickness + 1) }
  | .twistL => { s with twist := s.twist - 0.002 }
  | .twistR => { s with twist := s.twist + 0.002 }
  | .knobUp =>
      let p := getParam s.params s.last_toggled
      let p' := { p with val := min p.max (p.val + p.step) }
      { s with params := setParam s.params s.last_toggled p' }
  | .knobDown =>
      let p := getParam s.params s.last_toggled
      let p' := { p with val := max p.min (p.val - p.step) }
      { s with params := setParam s.params s.last_toggled p' }

/-- Folding a whole input sequence through `step`. -/
def applyEvents (s : State) (evs : List Event) : State :=
  evs.foldl (fun t e => step e t) s

/-- The configuration fields currently live in a state (same bundle as
`get_state`). -/
def config (s : State) : Config := get_state s

/-- Fractional part: Python's `x % 1.0` on a float. -/
def qfract (x : ℚ) : ℚ := x - ⌊x⌋

/-- Method `ProjectorV2.get_layer_color` up to (not including) the final
`colorsys.hsv_to_rgb` conversion: the resolved `(h, s, v)` triple for
layer `i` of `total` layers, in color mode `mode`, with global hue
`hue`. -/
def get_layer_color_hsv (mode : Nat) (hue : ℚ) (i total : Nat) : ℚ × ℚ × ℚ :=
  if mode = 1 then
    if i % 2 = 0 then (qfract (hue + 0.5), 1, 1) else (hue, 1, 1)
  else if mode = 2 then
    (qfract (hue + (i : ℚ) * 0.05), 1, 1)
  else if mode = 3 then
    let depth_factor : ℚ := 1 - (i : ℚ) / (total : ℚ)
    (hue, depth_factor, depth_factor)
  else (hue, 1, 1)

/-- The per-frame hue update of `ProjectorV2.update_vars` (and,
identically, the `auto_color` branch of
`ProjectorVisuals.update_parameters`): add the color-speed knob, then
subtract 1 once when the result exceeds 1. -/
def hueStep (speed hue : ℚ) : ℚ :=
  if hue + speed > 1 then hue + speed - 1 else hue + speed

/-- The inputs of `ProjectorV2.draw_scene` that feed the per-layer radius
and the iteration structure of the layer loop. -/
structure LoopCfg where
  radius : ℚ
  num_layers : Nat
  parallax : Bool
  motion_mode : Nat

/-- The wall-clock driven quantities the layer loop reads: `sin(t·0.5)`
for the parallax z-push, `sin(t·2 + i·0.5)` for pulse, and
`int(t·15)` for strobe. -/
structure LoopEnv where
  zsin : ℚ
  pulseSin : Nat → ℚ
  tIdx : ℤ

/-- The resolved radius of layer `i` in `ProjectorV2.draw_scene`: base
radius times `LAYER_SPACING_RATIO^i` (with the parallax z-push folded
into the ratio when parallax is on), times the pulse modulation in
motion mode 3.  This is the value the `if r < 2: break` guard tests. -/
def layerRadius (c : LoopCfg) (e : LoopEnv) (i : Nat) : ℚ :=
  let scale := if c.parallax then (SPACING_V2 * (1 + 0.05 * e.zsin)) ^ i else SPACING_V2 ^ i
  let r := c.radius * scale
  if c.motion_mode = 3 then r * (1 + 0.1 * e.pulseSin i) else r

/-- The strobe-mode `continue` condition of `ProjectorV2.draw_scene`,
which is tested before the radius break guard. -/
def strobeSkip (c : LoopCfg) (e : LoopEnv) (i : Nat) : Bool :=
  c.motion_mode == 4 && (((i : ℤ) + e.tIdx) % 3 != 0)

/-- The indices visited by the layer loop of `ProjectorV2.draw_scene`,
starting at index `i` with `rem` iterations remaining: a strobe-skipped
index is visited and the loop continues; otherwise the loop stops right
after the first index whose resolved radius is below 2. -/
def visitAux (c : LoopCfg) (e : LoopEnv) : Nat → Nat → List Nat
  | _, 0 => []
  | i, rem + 1 =>
    if strobeSkip c e i then i :: visitAux c e (i + 1) rem
    else if layerRadius c e i < 2 then [i]
    else i :: visitAux c e (i + 1) rem

/-- All indices visited by the layer loop `for i in range(self.num_layers)`. -/
def visited (c : LoopCfg) (e : LoopEnv) : List Nat := visitAux c e 0 c.num_layers

/-- Resolved layer radius in `ProjectorVisuals.run` (v1):
`current_radius * LAYER_SPACING_RATIO ** i`. -/
def layerRadiusV1 (radius : ℚ) (i : Nat) : ℚ := radius * SPACING_V1 ^ i

/-- Indices visited by the v1 draw loop, which breaks at the first layer
whose radius is below 2, with no skip path. -/
def visitAuxV1 (radius : ℚ) : Nat → Nat → List Nat
  | _, 0 => []
  | i, rem + 1 =>
    if layerRadiusV1 radius i < 2 then [i]
    else i :: visitAuxV1 radius (i + 1) rem

/-- All indices visited by the v1 draw loop over `num_layers` layers. -/
def visitedV1 (radius : ℚ) (num_layers : Nat) : List Nat := visitAuxV1 radius 0 num_layers

/-- Index into `self.noise_seeds` used by `ProjectorV2.get_noise_ring`:
`layer_idx % len(self.noise_seeds)`, with the seed list sized
`MAX_LAYERS` at startup. -/
def noiseSeedIndex (layer_idx : Nat) : Nat := layer_idx % MAX_LAYERS

/-- The shape-name lookup `self.shapes[self.shape_index]` performed every
frame by `ProjectorV2.draw_scene`. -/
def shapeName (s : State) : String := shapes.getD s.shape_index.toNat ""

end Fog

namespace FogV1

/-- Constant `MAX_LAYERS` of `fog_projector.py`. -/
def MAX_LAYERS : Nat := 50

/-- The mutable fields of `ProjectorVisuals` touched by its
`handle_input`. -/
structure StateV1 where
  shape_index : Nat
  num_layers : Nat
  thickness : Nat
  base_rotation : ℚ
  hue : ℚ
  auto_color : Bool
  color_speed : ℚ
  twist : ℚ
deriving DecidableEq

/-- The key events of `ProjectorVisuals.handle_input`: digit keys pick a
shape directly; q/w and a/s adjust layers and thickness; c toggles color
cycling; the arrow keys adjust twist and color speed. -/
inductive EventV1
  | space
  | digit (k : Fin 10)
  | keyQ | keyW | keyA | keyS | keyC
  | twistL | twistR | speedUp | speedDown

/-- One branch of `ProjectorVisuals.handle_input`. -/
def stepV1 (e : EventV1) (s : StateV1) : StateV1 :=
  match e with
  | .space => { s with base_rotation := 0 }
  | .digit k => { s with shape_index := k.val }
  | .keyQ => { s with num_layers := max 1 (s.num_layers - 1) }
  | .keyW => { s with num_layers := min MAX_LAYERS (s.num_layers + 1) }
  | .keyA => { s with thickness := max 1 (s.thickness - 1) }
  | .keyS => { s with thickness := min 50 (s.thickness + 1) }
  | .keyC => { s with auto_color := !s.auto_color }
  | .twistL => { s with twist := s.twist - 0.005 }
  | .twistR => { s with twist := s.twist + 0.005 }
  | .speedUp => { s with color_speed := s.color_speed + 0.0001 }
  | .speedDown => { s with color_speed := max 0 (s.color_speed - 0.0001) }

/-- Folding a whole input sequence through `stepV1`. -/
def applyEventsV1 (s : StateV1) (evs : List EventV1) : StateV1 :=
  evs.foldl (fun t e => stepV1 e t) s

end FogV1

namespace Fog

/-! ### The vortex physics distortion over the reals

`ProjectorV2.apply_physics`, mode 1, per point: with `dx, dy` the offset
from the layer center, `dist = sqrt(dx²+dy²)`, `angle = atan2(dy, dx)`,
the point is remapped to
`center + dist·(cos(angle + dist·strength), sin(angle + dist·strength))`. -/

/-- Python's `math.atan2 y x`, embedded as the argument of the complex number
`x + y·I`. -/
noncomputable def atan2 (y x : ℝ) : ℝ := Complex.arg ⟨x, y⟩

/-- Distance of `(x, y)` from the center `(cx, cy)`:
`dist = math.sqrt(dx*dx + dy*dy)` with `dx = x - cx`, `dy = y - cy`, as
computed in `apply_physics`. -/
noncomputable def distFrom (cx cy x y : ℝ) : ℝ :=
  Real.sqrt ((x - cx) * (x - cx) + (y - cy) * (y - cy))

/-- The mode-1 (vortex) branch of `ProjectorV2.apply_physics` for a
single point: `angle = atan2(dy, dx)` plus `twist_amt = dist * strength`,
and the new point is `center + dist·(cos angle, sin angle)`. -/
noncomputable def vortexPoint (cx cy strength x y : ℝ) : ℝ × ℝ :=
  (cx + distFrom cx cy x y *
      Real.cos (atan2 (y - cy) (x - cx) + distFrom cx cy x y * strength),
   cy + distFrom cx cy x y *
      Real.sin (atan2 (y - cy) (x - cx) + distFrom cx cy x y * strength))

/-- Rotation of the point `(x, y)` about `(cx, cy)` by the angle `θ`
(the specification's reading of the vortex distortion). -/
noncomputable def rotateAbout (cx cy θ x y : ℝ) : ℝ × ℝ :=
  (cx + (x - cx) * Real.cos θ - (y - cy) * Real.sin θ,
   cy + (x - cx) * Real.sin θ + (y - cy) * Real.cos θ)

/-! ### Heap embedding of the waypoint snapshot copies

`get_state` copies the feature dictionary (`self.features.copy()`) and
deep-copies the knob table (`copy.deepcopy(self.params)`); `set_state`
copies them again on restore.  To reason about aliasing between stored
snapshots and the live state this embedding makes the two dictionaries
heap cells: an address plus a store, with `copy` modelled as allocation
of a fresh cell holding the same contents, and in-place dictionary
mutation as a store write through the live address. -/

/-- The store of feature-dictionary and knob-table cells, with bump
allocators. -/
structure Heap where
  feat : Nat → Features
  par : Nat → Params
  featNext : Nat
  parNext : Nat

/-- A stored waypoint at heap level: the scalar configuration fields by
value, the two dictionaries by address. -/
structure HSnap where
  shape_index : ℤ
  num_layers : Nat
  thickness : Nat
  twist : ℚ
  hue : ℚ
  featAddr : Nat
  parAddr : Nat
deriving DecidableEq

/-- The live object at heap level: scalars by value, `self.features` and
`self.params` as addresses into the heap, plus the waypoint list. -/
structure HState where
  heap : Heap
  shape_index : ℤ
  num_layers : Nat
  thickness : Nat
  twist : ℚ
  hue : ℚ
  featAddr : Nat
  parAddr : Nat
  waypoints : List HSnap

/-- In-place mutation of the live feature dictionary
(`self.features[key] = value`). -/
def hMutFeat (f : Features → Features) (s : HState) : HState :=
  { s with heap := { s.heap with
      feat := Function.update s.heap.feat s.featAddr (f (s.heap.feat s.featAddr)) } }

/-- In-place mutation of the live knob table
(`self.params[key][subkey] = value`, reached through the nested dict). -/
def hMutPar (f : Params → Params) (s : HState) : HState :=
  { s with heap := { s.heap with
      par := Function.update s.heap.par s.parAddr (f (s.heap.par s.parAddr)) } }

/-- Rebinding `self.features` to a brand new dictionary, as the Default
preset does (`self.features = {k: False for k in self.features}`). -/
def hRebindFeat (fs : Features) (s : HState) : HState :=
  { s with
    heap := { s.heap with
      feat := Function.update s.heap.feat s.heap.featNext fs
      featNext := s.heap.featNext + 1 }
    featAddr := s.heap.featNext }

/-- Snapshot capture (`get_state`) at heap level: the snapshot holds fresh cells carrying
copies of the live dictionaries' contents. -/
def hGetState (s : HState) : HSnap × Heap :=
  ({ shape_index := s.shape_index
     num_layers := s.num_layers
     thickness := s.thickness
     twist := s.twist
     hue := s.hue
     featAddr := s.heap.featNext
     parAddr := s.heap.parNext },
   { feat := Function.update s.heap.feat s.heap.featNext (s.heap.feat s.featAddr)
     par := Function.update s.heap.par s.heap.parNext (s.heap.par s.parAddr)
     featNext := s.heap.featNext + 1
     parNext := s.heap.parNext + 1 })

/-- Waypoint Append (`self.waypoints.append(self.get_state())`). -/
def hAppend (s : HState) : HState :=
  let p := hGetState s
  { s with heap := p.2, waypoints := s.waypoints ++ [p.1] }

/-- UpdateCurrent (`self.waypoints[i] = self.get_state()`). -/
def hUpdateCur (i : Nat) (s : HState) : HState :=
  let p := hGetState s
  { s with heap := p.2, waypoints := s.waypoints.set i p.1 }

/-- Restore (`set_state(self.waypoints[i])`) at heap level: the live dictionaries
are rebound to fresh cells carrying copies of the snapshot's contents
(`state['features'].copy()` / `copy.deepcopy(state['params'])`). -/
def hRestore (i : Nat) (s : HState) : HState :=
  match s.waypoints.get? i with
  | none => s
  | some w =>
    { s with
      shape_index := w.shape_index
      num_layers := w.num_layers
      thickness := w.thickness
      twist := w.twist
      hue := w.hue
      heap := { feat := Function.update s.heap.feat s.heap.featNext (s.heap.feat w.featAddr)
                par := Function.update s.heap.par s.heap.parNext (s.heap.par w.parAddr)
                featNext := s.heap.featNext + 1
                parNext := s.heap.parNext + 1 }
      featAddr := s.heap.featNext
      parAddr := s.heap.parNext }

/-- The heap-level operations the claims quantify over. -/
inductive HOp
  | mutFeat (f : Features → Features)
  | mutPar (f : Params → Params)
  | rebindFeat (fs : Features)
  | append
  | updateCur (i : Nat)
  | restore (i : Nat)

/-- One heap-level operation. -/
def hStep : HOp → HState → HState
  | .mutFeat f => hMutFeat f
  | .mutPar f => hMutPar f
  | .rebindFeat fs => hRebindFeat fs
  | .append => hAppend
  | .updateCur i => hUpdateCur i
  | .restore i => hRestore i

/-- Freshness invariant: every address in use is below the allocator,
and no stored snapshot shares a dictionary cell with the live state. -/
def SnapFresh (s : HState) : Prop :=
  s.featAddr < s.heap.featNext ∧ s.parAddr < s.heap.parNext ∧
    ∀ w ∈ s.waypoints,
      w.featAddr < s.heap.featNext ∧ w.parAddr < s.heap.parNext ∧
        w.featAddr ≠ s.featAddr ∧ w.parAddr ≠ s.parAddr

instance (s : HState) : Decidable (SnapFresh s) := by
  unfold SnapFresh; infer_instance

/-- The dictionary contents a stored snapshot points at. -/
def snapContents (s : HState) (w : HSnap) : Features × Params :=
  (s.heap.feat w.featAddr, s.heap.par w.parAddr)

/-! ### Invariants stated by the specification -/

/-- A knob is well formed and in range: declared bounds are ordered, the
step is non-negative, and the value lies within the bounds. -/
def knobOK (k : Knob) : Prop :=
  k.min ≤ k.max ∧ 0 ≤ k.step ∧ k.min ≤ k.val ∧ k.val ≤ k.max

instance : DecidablePred knobOK := fun k => by unfold knobOK; infer_instance

/-- Every knob of the table is well formed and in range. -/
def paramsOK (p : Params) : Prop :=
  knobOK p.parallax ∧ knobOK p.breathing ∧ knobOK p.color_mode ∧
    knobOK p.motion_mode ∧ knobOK p.trails ∧ knobOK p.physics ∧ knobOK p.chaos

instance : DecidablePred paramsOK := fun p => by unfold paramsOK; infer_instance

/-- Bounds invariant on one configuration bundle: knobs in range,
`num_layers ∈ [1, MAX_LAYERS]`, `thickness ∈ [1, 40]`. -/
def configOK (c : Config) : Prop :=
  paramsOK c.params ∧ 1 ≤ c.num_layers ∧ c.num_layers ≤ MAX_LAYERS ∧
    1 ≤ c.thickness ∧ c.thickness ≤ 40

instance : DecidablePred configOK := fun c => by unfold configOK; infer_instance

/-- Bounds invariant on the whole state: the live configuration and every
stored waypoint satisfy `configOK`. -/
def boundsInv (s : State) : Prop :=
  configOK (config s) ∧ ∀ w ∈ s.waypoints, configOK w

instance (s : State) : Decidable (boundsInv s) := by unfold boundsInv; infer_instance

/-- The shape selector of a configuration is a valid index into the shape
registry. -/
def shapeOK (c : Config) : Prop :=
  0 ≤ c.shape_index ∧ c.shape_index < (shapes.length : ℤ)

instance : DecidablePred shapeOK := fun c => by unfold shapeOK; infer_instance

/-- Shape-selector invariant on the whole state: the live configuration
and every stored waypoint have a valid shape index. -/
def shapeInv (s : State) : Prop :=
  shapeOK (config s) ∧ ∀ w ∈ s.waypoints, shapeOK w

instance (s : State) : Decidable (shapeInv s) := by unfold shapeInv; infer_instance

/-! ### Concrete inputs used by counterexamples and witnesses -/

/-- State `initState` with the trails toggle on. -/
def exTrailsOn : State := { initState with features := { feat0 with trails := true } }

/-- State `initState` with hue 1. -/
def exHueOne : State := { initState with hue := 1 }

/-- Three distinguishable waypoint snapshots. -/
def wpA : Config := { cfg0 with shape_index := 1 }

/-- Second sample snapshot. -/
def wpB : Config := { cfg0 with shape_index := 2 }

/-- Third sample snapshot. -/
def wpC : Config := { cfg0 with shape_index := 3 }

/-- A state with three waypoints and the cursor on the first. -/
def exDel : State := { initState with waypoints := [wpA, wpB, wpC], cursor := 0 }

/-- A state with two waypoints, cursor 0, and a live shape index that
differs from both snapshots. -/
def exNext : State := { initState with waypoints := [wpA, wpB], cursor := 0, shape_index := 7 }

/-- Strobe-mode loop configuration whose first sub-threshold layer index
is strobe-skipped. -/
def exStrobeCfg : LoopCfg := { radius := 11/5, num_layers := 5, parallax := false, motion_mode := 4 }

/-- A time environment for the loop: both sines at phase zero, strobe
counter zero. -/
def exEnv : LoopEnv := { zsin := 0, pulseSin := fun _ => 0, tIdx := 0 }

/-- A normal-mode loop configuration with the same radii. -/
def exNormCfg : LoopCfg := { radius := 11/5, num_layers := 5, parallax := false, motion_mode := 0 }

/-- A heap-level state with one stored waypoint at fresh addresses. -/
def exHState : HState :=
  { heap := { feat := fun _ => feat0, par := fun _ => params0, featNext := 2, parNext := 2 }
    shape_index := 0
    num_layers := 16
    thickness := 3
    twist := 0.02
    hue := 0
    featAddr := 1
    parAddr := 1
    waypoints := [{ shape_index := 0, num_layers := 16, thickness := 3, twist := 0.02
                    hue := 0, featAddr := 0, parAddr := 0 }] }

end Fog

namespace FogV1

/-- Bounds invariant of the v1 state: `num_layers ∈ [1, 50]`,
`thickness ∈ [1, 50]`, non-negative color speed. -/
def boundsInvV1 (s : StateV1) : Prop :=
  1 ≤ s.num_layers ∧ s.num_layers ≤ MAX_LAYERS ∧
    1 ≤ s.thickness ∧ s.thickness ≤ 50 ∧ 0 ≤ s.color_speed

instance (s : StateV1) : Decidable (boundsInvV1 s) := by unfold boundsInvV1; infer_instance

/-- A sample v1 state within bounds. -/
def exV1 : StateV1 :=
  { shape_index := 1, num_layers := 1, thickness := 4, base_rotation := 0
    hue := 0, auto_color := true, color_speed := 0.002, twist := 0 }

end FogV1

namespace Fog

/-! ## Claim theorems -/

/-- C1, counterexample: loading the `Cathedral` preset does not determine
every configuration field from the preset name alone — two prior states
that differ only in the trails toggle still differ after the load, so no
full parameter bundle is applied. -/
theorem c1_preset_partial_cex :
    (load_preset "Cathedral" exTrailsOn).features.trails ≠
        (load_preset "Cathedral" initState).features.trails ∧
      (load_preset "Default" exHueOne).hue ≠ (load_preset "Default" initState).hue := by
  constructor
  · simp [load_preset, exTrailsOn, initState, feat0]
  · simp [load_preset, exHueOne, initState]

/-- C1, amended: each known preset atomically overwrites a fixed,
preset-specific subset of the configuration fields with constants, and
leaves every other configuration field at its previous value (so the
fields a preset does set are determined by the name alone, but the bundle
is not complete: e.g. Cathedral keeps the previous trails toggle and
Default keeps the previous hue). -/
theorem c1_preset_fields :
    ∀ s : State,
      load_preset "Cathedral" s =
        { s with shape_index := 9, twist := 0, num_layers := 20, hue := 0.1
                 features := { s.features with color_mode := 3, motion_mode := 0, physics := 0 } } ∧
      load_preset "Galactic" s =
        { s with shape_index := 8, twist := 0.1, num_layers := 15
                 features := { s.features with motion_mode := 1, physics := 1, trails := true } } ∧
      load_preset "Jelly" s =
        { s with shape_index := 4, twist := 0.01, num_layers := 12
                 features := { s.features with breathing := true, color_mode := 2, motion_mode := 3 } } ∧
      load_preset "Crystal" s =
        { s with shape_index := 3, twist := 0.05, num_layers := 25
                 features := { s.features with parallax := true, color_mode := 1 } } ∧
      load_preset "Default" s =
        { s with shape_index := 0, twist := 0.02, num_layers := 16
                 features := { parallax := false, breathing := false, color_mode := 0
                               motion_mode := 0, trails := false, physics := 0
                               chaos := false, show_hud := false } } := by
  intro s
  exact ⟨rfl, rfl, rfl, rfl, rfl⟩

/-- C2, counterexample: in Dual color mode with global hue 0, layer 0
(an even index) resolves to hue 1/2 rather than the unchanged global hue,
and layer 1 (an odd index) resolves to the unchanged hue 0 rather than
the shifted 1/2 — the parity in the claim is reversed. -/
theorem c2_dual_parity_cex :
    (get_layer_color_hsv 1 0 0 16).1 ≠ 0 ∧
      (get_layer_color_hsv 1 0 1 16).1 ≠ qfract (0 + 0.5) := by
  constructor
  · norm_num [get_layer_color_hsv, qfract]
  · norm_num [get_layer_color_hsv, qfract]

/-- C2, amended: in Dual color mode the resolved layer hue equals the
global hue shifted by 0.5 (modulo 1) when the layer index is even, and
the unchanged global hue when the index is odd. -/
theorem c2_dual_parity :
    ∀ (hue : ℚ) (i total : Nat),
      (i % 2 = 0 → (get_layer_color_hsv 1 hue i total).1 = qfract (hue + 0.5)) ∧
      (i % 2 = 1 → (get_layer_color_hsv 1 hue i total).1 = hue) := by
  intro hue i total
  constructor <;> intro h <;> simp [get_layer_color_hsv, h]

/-- Witness for `c2_dual_parity` at layers 0 and 1. -/
theorem c2_dual_parity_witness :
    (0 % 2 = 0 ∧ (get_layer_color_hsv 1 0 0 16).1 = qfract (0 + 0.5)) ∧
      (1 % 2 = 1 ∧ (get_layer_color_hsv 1 0 1 16).1 = 0) :=
  ⟨⟨rfl, (c2_dual_parity 0 0 16).1 rfl⟩, ⟨rfl, (c2_dual_parity 0 1 16).2 rfl⟩⟩

/-- C4, counterexample: the wrap `if hue > 1: hue -= 1` subtracts at most
once, so a color speed of 5/2 (non-negative, overflowing the interval
more than once in a single frame) leaves hue at 3/2 ∉ [0,1); and even the
bounded speed 1/2 can land hue exactly on 1, which is outside the
half-open interval. -/
theorem c4_hue_wrap_cex :
    (0 : ℚ) ≤ 5/2 ∧ hueStep (5/2) 0 = 3/2 ∧ ¬ hueStep (5/2) 0 < 1 ∧
      hueStep (1/2) (1/2) = 1 ∧ ¬ hueStep (1/2) (1/2) < 1 := by
  norm_num [hueStep]

/-- C4, amended: for any per-frame color speed in [0, 1] (which covers
the whole declared knob range [0, 0.05]) and any starting hue in [0, 1],
the hue stays in the closed interval [0, 1] after any number of frames;
the code's single-subtraction wrap guarantees no more than that — the
upper endpoint 1 itself is reachable. -/
theorem c4_hue_bounds :
    ∀ (speed hue : ℚ) (n : Nat), 0 ≤ speed → speed ≤ 1 → 0 ≤ hue → hue ≤ 1 →
      0 ≤ (hueStep speed)^[n] hue ∧ (hueStep speed)^[n] hue ≤ 1 := by
  intro speed hue n hs0 hs1 h0 h1
  induction n generalizing hue with
  | zero => exact ⟨h0, h1⟩
  | succ n ih =>
    rw [Function.iterate_succ_apply]
    apply ih <;> unfold hueStep <;> split <;> linarith

/-- Witness for `c4_hue_bounds` at the initial color speed 0.002, hue 0,
three frames. -/
theorem c4_hue_bounds_witness :
    (0 : ℚ) ≤ 0.002 ∧ (0.002 : ℚ) ≤ 1 ∧ (0 : ℚ) ≤ 0 ∧ (0 : ℚ) ≤ 1 ∧
      (0 ≤ (hueStep 0.002)^[3] 0 ∧ (hueStep 0.002)^[3] 0 ≤ 1) :=
  ⟨by norm_num, by norm_num, le_refl 0, by norm_num,
    c4_hue_bounds 0.002 0 3 (by norm_num) (by norm_num) (le_refl 0) (by norm_num)⟩

end Fog

namespace Fog

/-! ### Helper lemmas for the vortex distortion -/

/-- Identity `dist * cos (atan2 dy dx) = dx`. -/
theorem sqrt_mul_cos_atan2 (dx dy : ℝ) :
    Real.sqrt (dx * dx + dy * dy) * Real.cos (atan2 dy dx) = dx := by
  have h := Complex.abs_mul_cos_arg ⟨dx, dy⟩
  rw [Complex.abs_apply, Complex.normSq_mk] at h
  exact h

/-- Identity `dist * sin (atan2 dy dx) = dy`. -/
theorem sqrt_mul_sin_atan2 (dx dy : ℝ) :
    Real.sqrt (dx * dx + dy * dy) * Real.sin (atan2 dy dx) = dy := by
  have h := Complex.abs_mul_sin_arg ⟨dx, dy⟩
  rw [Complex.abs_apply, Complex.normSq_mk] at h
  exact h

/-- The vortex branch is exactly a rotation about the layer center by the
angle `dist * strength`. -/
theorem vortex_eq_rotate (cx cy strength x y : ℝ) :
    vortexPoint cx cy strength x y =
      rotateAbout cx cy (distFrom cx cy x y * strength) x y := by
  have hc := sqrt_mul_cos_atan2 (x - cx) (y - cy)
  have hs := sqrt_mul_sin_atan2 (x - cx) (y - cy)
  unfold vortexPoint rotateAbout distFrom
  rw [Prod.mk.injEq]
  constructor
  · rw [Real.cos_add]
    linear_combination
      (Real.cos (Real.sqrt ((x - cx) * (x - cx) + (y - cy) * (y - cy)) * strength)) * hc -
        (Real.sin (Real.sqrt ((x - cx) * (x - cx) + (y - cy) * (y - cy)) * strength)) * hs
  · rw [Real.sin_add]
    linear_combination
      (Real.sin (Real.sqrt ((x - cx) * (x - cx) + (y - cy) * (y - cy)) * strength)) * hc +
        (Real.cos (Real.sqrt ((x - cx) * (x - cx) + (y - cy) * (y - cy)) * strength)) * hs

/-- Distance from a center to a point written in polar form about that
center. -/
theorem dist_polar (c1 c2 d A : ℝ) (hd : 0 ≤ d) :
    Real.sqrt ((c1 + d * Real.cos A - c1) * (c1 + d * Real.cos A - c1) +
      (c2 + d * Real.sin A - c2) * (c2 + d * Real.sin A - c2)) = d := by
  have hpy := Real.sin_sq_add_cos_sq A
  have key : (c1 + d * Real.cos A - c1) * (c1 + d * Real.cos A - c1) +
      (c2 + d * Real.sin A - c2) * (c2 + d * Real.sin A - c2) = d * d := by
    linear_combination (d * d) * hpy
  rw [key, Real.sqrt_mul_self hd]

/-- The vortex distortion preserves the distance to the layer center. -/
theorem vortex_dist (cx cy strength x y : ℝ) :
    distFrom cx cy (vortexPoint cx cy strength x y).1 (vortexPoint cx cy strength x y).2 =
      distFrom cx cy x y := by
  exact dist_polar cx cy (distFrom cx cy x y)
    (atan2 (y - cy) (x - cx) + distFrom cx cy x y * strength) (Real.sqrt_nonneg _)

/-- A point at the layer center (distance 0) is left in place. -/
theorem vortex_center (cx cy strength : ℝ) :
    vortexPoint cx cy strength cx cy = (cx, cy) := by
  simp [vortexPoint, distFrom]

/-- The sample point of the claim sits at distance 100 from the origin. -/
theorem dist100 : distFrom 0 0 100 0 = 100 := by
  unfold distFrom
  rw [show ((100:ℝ) - 0) * ((100:ℝ) - 0) + ((0:ℝ) - 0) * ((0:ℝ) - 0) = 100 * 100 by norm_num]
  exact Real.sqrt_mul_self (by norm_num)

/-- With strength 0.01, the point at distance 100 is rotated by exactly
one radian. -/
theorem vortex_example :
    vortexPoint 0 0 (1/100) 100 0 = rotateAbout 0 0 1 100 0 := by
  have h := vortex_eq_rotate 0 0 (1/100) 100 0
  rwa [dist100, show (100:ℝ) * (1/100) = 1 by norm_num] at h

/-- C7, confirmed: the vortex physics distortion maps every point to the
rotation of that point about the layer center by the angle
`distance × strength` (hence the distance to the center is preserved);
a point at the center is unaffected, and with strength 0.01 the point at
distance 100 is rotated by exactly 1.0 radian. -/
theorem c7_vortex_rotation :
    ∀ cx cy strength x y : ℝ,
      vortexPoint cx cy strength x y =
          rotateAbout cx cy (distFrom cx cy x y * strength) x y ∧
        distFrom cx cy (vortexPoint cx cy strength x y).1 (vortexPoint cx cy strength x y).2 =
          distFrom cx cy x y ∧
        vortexPoint cx cy strength cx cy = (cx, cy) ∧
        distFrom 0 0 100 0 = 100 ∧
        vortexPoint 0 0 (1/100) 100 0 = rotateAbout 0 0 1 100 0 :=
  fun cx cy strength x y =>
    ⟨vortex_eq_rotate cx cy strength x y, vortex_dist cx cy strength x y,
      vortex_center cx cy strength, dist100, vortex_example⟩

end Fog

namespace Fog

/-- Restoring a snapshot makes it the current configuration. -/
theorem config_set_state (c : Config) (s : State) : config (set_state c s) = c := rfl

/-- Unfolding of the DeleteLast branch of `handle_input`. -/
theorem step_keyG_eq (s : State) :
    step Event.keyG s =
      if s.waypoints = [] then s
      else
        if 0 ≤ (s.waypoints.dropLast.length : ℤ) - 1 then
          set_state
            (s.waypoints.dropLast.getD ((s.waypoints.dropLast.length : ℤ) - 1).toNat cfg0)
            { s with waypoints := s.waypoints.dropLast
                     cursor := (s.waypoints.dropLast.length : ℤ) - 1 }
        else
          { s with waypoints := s.waypoints.dropLast
                   cursor := (s.waypoints.dropLast.length : ℤ) - 1 } := rfl

/-- C3, counterexample: deleting the last waypoint of `exDel` (three
waypoints, cursor 0) moves the cursor from 0 to 1 even though 0 is still
a valid index after the deletion, and overwrites the live configuration
with waypoint 1 — contradicting "the cursor is changed only if it pointed
past the new end" and "AnimationState is left unchanged". -/
theorem c3_delete_cursor_cex :
    exDel.cursor = 0 ∧ 0 ≤ exDel.cursor ∧
      exDel.cursor < ((step Event.keyG exDel).waypoints.length : ℤ) ∧
      (step Event.keyG exDel).cursor ≠ exDel.cursor ∧
      (step Event.keyG exDel).shape_index ≠ exDel.shape_index := by
  decide

/-- C3, amended: DeleteLast on a non-empty collection removes the
highest-index snapshot and unconditionally resets the cursor to the new
highest index (new length − 1); whenever the collection stays non-empty
the snapshot now under the cursor is re-applied to AnimationState (even
if the old cursor was still valid); if the collection becomes empty the
cursor becomes −1 and the state is untouched. -/
theorem c3_delete_behaviour :
    ∀ s : State, s.waypoints ≠ [] →
      (step Event.keyG s).waypoints = s.waypoints.dropLast ∧
        (step Event.keyG s).cursor = (s.waypoints.dropLast.length : ℤ) - 1 ∧
        (s.waypoints.dropLast ≠ [] →
          config (step Event.keyG s) =
            s.waypoints.dropLast.getD (s.waypoints.dropLast.length - 1) cfg0) ∧
        (s.waypoints.dropLast = [] →
          config (step Event.keyG s) = config s ∧ (step Event.keyG s).cursor = -1) := by
  intro s hne
  rw [step_keyG_eq, if_neg hne]
  by_cases hw : s.waypoints.dropLast = []
  · rw [hw]
    rw [if_neg (by norm_num : ¬ (0:ℤ) ≤ (([] : List Config).length : ℤ) - 1)]
    exact ⟨rfl, rfl, fun h => absurd rfl h, fun _ => ⟨rfl, by norm_num⟩⟩
  · have hlen : 0 < s.waypoints.dropLast.length := List.length_pos.mpr hw
    rw [if_pos (show (0:ℤ) ≤ (s.waypoints.dropLast.length : ℤ) - 1 by omega)]
    refine ⟨rfl, rfl, fun _ => ?_, fun h => absurd h hw⟩
    rw [config_set_state]
    congr 1
    omega

/-- Witness for `c3_delete_behaviour` at `exDel`. -/
theorem c3_delete_behaviour_witness :
    exDel.waypoints ≠ [] ∧
      ((step Event.keyG exDel).waypoints = exDel.waypoints.dropLast ∧
        (step Event.keyG exDel).cursor = (exDel.waypoints.dropLast.length : ℤ) - 1 ∧
        (exDel.waypoints.dropLast ≠ [] →
          config (step Event.keyG exDel) =
            exDel.waypoints.dropLast.getD (exDel.waypoints.dropLast.length - 1) cfg0) ∧
        (exDel.waypoints.dropLast = [] →
          config (step Event.keyG exDel) = config exDel ∧
            (step Event.keyG exDel).cursor = -1)) :=
  ⟨by decide, c3_delete_behaviour exDel (by decide)⟩

end Fog

namespace Fog

/-- Unfolding of the Next-waypoint branch of `handle_input`. -/
theorem step_keyL_eq (s : State) :
    step Event.keyL s =
      if s.waypoints = [] then s
      else
        set_state
          (s.waypoints.getD (((s.cursor + 1) % (s.waypoints.length : ℤ)).toNat) cfg0)
          { s with cursor := (s.cursor + 1) % (s.waypoints.length : ℤ) } := rfl

/-- Identity `(a + n) % n = a % n` over `ℤ`. -/
theorem int_add_self_emod (a n : ℤ) : (a + n) % n = a % n := by
  have h := @Int.add_mul_emod_self_left a n 1
  rwa [mul_one] at h

/-- Iterating Next `k+1` times: the waypoint list is unchanged, the
cursor advances by `k+1` modulo the count, and the configuration is the
snapshot now under the cursor. -/
theorem keyL_iter :
    ∀ (k : Nat) (s : State), s.waypoints ≠ [] →
      ((step Event.keyL)^[k+1] s).waypoints = s.waypoints ∧
        ((step Event.keyL)^[k+1] s).cursor =
          (s.cursor + (k : ℤ) + 1) % (s.waypoints.length : ℤ) ∧
        config ((step Event.keyL)^[k+1] s) =
          s.waypoints.getD
            (((s.cursor + (k : ℤ) + 1) % (s.waypoints.length : ℤ)).toNat) cfg0 := by
  intro k
  induction k with
  | zero =>
    intro s h
    rw [Function.iterate_one, step_keyL_eq, if_neg h]
    refine ⟨rfl, ?_, ?_⟩
    · show (s.cursor + 1) % (s.waypoints.length : ℤ) = (s.cursor + (0:ℤ) + 1) % _
      norm_num
    · rw [config_set_state]
      norm_num
  | succ k ih =>
    intro s h
    obtain ⟨hw, hc, hcfg⟩ := ih s h
    have hne : ((step Event.keyL)^[k+1] s).waypoints ≠ [] := by rw [hw]; exact h
    rw [Function.iterate_succ_apply' (step Event.keyL) (k+1) s, step_keyL_eq, if_neg hne]
    refine ⟨hw, ?_, ?_⟩
    · show (((step Event.keyL)^[k+1] s).cursor + 1) %
          (((step Event.keyL)^[k+1] s).waypoints.length : ℤ) = _
      rw [hc, hw, Int.emod_add_emod]
      congr 1
      push_cast
      ring_nf
    · rw [config_set_state, hw, hc, Int.emod_add_emod]
      congr 2
      push_cast
      ring_nf

/-- C6, confirmed: with a non-empty waypoint collection of size N and a
valid starting cursor, pressing Next exactly N times leaves the waypoint
list unchanged, returns the cursor to its starting index, and restores
the configuration fields to the snapshot stored at that index. -/
theorem c6_next_cycle :
    ∀ s : State, s.waypoints ≠ [] → 0 ≤ s.cursor → s.cursor < (s.waypoints.length : ℤ) →
      ((step Event.keyL)^[s.waypoints.length] s).cursor = s.cursor ∧
        config ((step Event.keyL)^[s.waypoints.length] s) =
          s.waypoints.getD s.cursor.toNat cfg0 ∧
        ((step Event.keyL)^[s.waypoints.length] s).waypoints = s.waypoints := by
  intro s h h0 hlt
  obtain ⟨m, hm⟩ : ∃ m, s.waypoints.length = m + 1 :=
    Nat.exists_eq_succ_of_ne_zero (fun h0 => h (List.length_eq_zero.mp h0))
  obtain ⟨hw, hc, hcfg⟩ := keyL_iter m s h
  have hmod : (s.cursor + (m : ℤ) + 1) % (s.waypoints.length : ℤ) = s.cursor := by
    have hsum : s.cursor + (m : ℤ) + 1 = s.cursor + (s.waypoints.length : ℤ) := by
      rw [hm]; push_cast; omega
    rw [hsum, int_add_self_emod]
    exact Int.emod_eq_of_lt h0 hlt
  rw [hmod] at hc hcfg
  rw [hm]
  exact ⟨hc, hcfg, hw⟩

/-- Witness for `c6_next_cycle`: two waypoints, cursor 0, two Next
presses. -/
theorem c6_next_cycle_witness :
    exNext.waypoints ≠ [] ∧ 0 ≤ exNext.cursor ∧
      exNext.cursor < (exNext.waypoints.length : ℤ) ∧
      (((step Event.keyL)^[exNext.waypoints.length] exNext).cursor = exNext.cursor ∧
        config ((step Event.keyL)^[exNext.waypoints.length] exNext) =
          exNext.waypoints.getD exNext.cursor.toNat cfg0 ∧
        ((step Event.keyL)^[exNext.waypoints.length] exNext).waypoints = exNext.waypoints) :=
  ⟨by decide, by decide, by decide,
    c6_next_cycle exNext (by decide) (by decide) (by decide)⟩

end Fog

namespace Fog

/-- The geometric per-layer radius sequence is strictly decreasing for a
positive base radius and a ratio in (0,1). -/
theorem radius_strict_anti (ratio radius : ℚ) (h0 : 0 < ratio) (h1 : ratio < 1)
    (hr : 0 < radius) (i : Nat) : radius * ratio ^ (i + 1) < radius * ratio ^ i :=
  mul_lt_mul_of_pos_left (pow_lt_pow_right_of_lt_one₀ h0 h1 (Nat.lt_succ_self i)) hr

/-- Outside strobe mode the layer loop never reaches an index beyond a
sub-threshold one: every visited index `j` has all earlier indices (from
the start of the scan) at radius ≥ 2. -/
theorem visitAux_stop (c : LoopCfg) (e : LoopEnv) (hm : c.motion_mode ≠ 4) :
    ∀ (rem i j : Nat), j ∈ visitAux c e i rem →
      ∀ k, i ≤ k → k < j → ¬ layerRadius c e k < 2 := by
  intro rem
  induction rem with
  | zero => intro i j hj; simp [visitAux] at hj
  | succ rem ih =>
    intro i j hj k hik hkj
    have hskip : strobeSkip c e i = false := by
      simp [strobeSkip, hm]
    rw [visitAux, hskip] at hj
    simp only [Bool.false_eq_true, if_false] at hj
    by_cases hr : layerRadius c e i < 2
    · rw [if_pos hr] at hj
      have hji : j = i := by simpa using hj
      exact absurd hkj (by omega)
    · rw [if_neg hr] at hj
      rcases List.mem_cons.mp hj with hji | hjr
      · exact absurd hkj (by omega)
      · rcases Nat.lt_or_ge k (i + 1) with hk | hk
        · have hki : k = i := by omega
          rw [hki]; exact hr
        · exact ih (i + 1) j hjr k hk hkj

/-- The v1 draw loop stops at the first sub-threshold index. -/
theorem visitAuxV1_stop (radius : ℚ) :
    ∀ (rem i j : Nat), j ∈ visitAuxV1 radius i rem →
      ∀ k, i ≤ k → k < j → ¬ layerRadiusV1 radius k < 2 := by
  intro rem
  induction rem with
  | zero => intro i j hj; simp [visitAuxV1] at hj
  | succ rem ih =>
    intro i j hj k hik hkj
    rw [visitAuxV1] at hj
    by_cases hr : layerRadiusV1 radius i < 2
    · rw [if_pos hr] at hj
      have hji : j = i := by simpa using hj
      exact absurd hkj (by omega)
    · rw [if_neg hr] at hj
      rcases List.mem_cons.mp hj with hji | hjr
      · exact absurd hkj (by omega)
      · rcases Nat.lt_or_ge k (i + 1) with hk | hk
        · have hki : k = i := by omega
          rw [hki]; exact hr
        · exact ih (i + 1) j hjr k hk hkj

/-- C5, counterexample: the claim fails in two ways.  (i) With base
radius 0 the sequence `radius·ratio^i` is constant, not strictly
decreasing, so "every base radius" is too strong.  (ii) In strobe mode
(motion mode 4) the `continue` is tested before the radius break: in
`exStrobeCfg` layers 0 and 1 are at radius ≥ 2, layer 2 is the first
sub-threshold index, yet the loop still visits index 3. -/
theorem c5_strobe_cex :
    ¬ (0 : ℚ) * (1/2) ^ (0 + 1) < (0 : ℚ) * (1/2) ^ 0 ∧
      exStrobeCfg.motion_mode = 4 ∧
      ¬ layerRadius exStrobeCfg exEnv 0 < 2 ∧
      ¬ layerRadius exStrobeCfg exEnv 1 < 2 ∧
      layerRadius exStrobeCfg exEnv 2 < 2 ∧
      3 ∈ visited exStrobeCfg exEnv := by
  refine ⟨by norm_num, rfl, ?_, ?_, ?_, ?_⟩
  · norm_num [layerRadius, exStrobeCfg, exEnv, SPACING_V2]
  · norm_num [layerRadius, exStrobeCfg, exEnv, SPACING_V2]
  · norm_num [layerRadius, exStrobeCfg, exEnv, SPACING_V2]
  · norm_num [visited, visitAux, strobeSkip, layerRadius, exStrobeCfg, exEnv, SPACING_V2]

/-- C5, amended: (a) for every ratio in (0,1) and every positive base
radius the per-layer radius sequence `radius·ratio^i` is strictly
decreasing — in particular for the configured spacing 0.92; (b) in every
motion mode except strobe, and likewise in the v1 loop, the compositing
loop stops at or before the first index whose resolved layer radius
drops below 2 (every index it visits has all earlier indices at radius
≥ 2); in strobe mode the loop can visit indices beyond the first
sub-threshold one. -/
theorem c5_radius_termination :
    (∀ ratio radius : ℚ, 0 < ratio → ratio < 1 → 0 < radius →
        ∀ i : Nat, radius * ratio ^ (i + 1) < radius * ratio ^ i) ∧
      (∀ radius : ℚ, 0 < radius →
        ∀ i : Nat, radius * SPACING_V2 ^ (i + 1) < radius * SPACING_V2 ^ i) ∧
      (∀ (c : LoopCfg) (e : LoopEnv), c.motion_mode ≠ 4 →
        ∀ j ∈ visited c e, ∀ k, k < j → ¬ layerRadius c e k < 2) ∧
      (∀ (radius : ℚ) (n : Nat),
        ∀ j ∈ visitedV1 radius n, ∀ k, k < j → ¬ layerRadiusV1 radius k < 2) := by
  refine ⟨radius_strict_anti, ?_, ?_, ?_⟩
  · intro radius hr i
    exact radius_strict_anti SPACING_V2 radius (by norm_num [SPACING_V2])
      (by norm_num [SPACING_V2]) hr i
  · intro c e hm j hj k hkj
    exact visitAux_stop c e hm c.num_layers 0 j hj k (Nat.zero_le k) hkj
  · intro radius n j hj k hkj
    exact visitAuxV1_stop radius n 0 j hj k (Nat.zero_le k) hkj

/-- Witness for `c5_radius_termination`: ratio 1/2 and radius 1 at layer
0; the normal-mode loop `exNormCfg` visits index 2 with index 1 at
radius ≥ 2; the v1 loop at radius 300 visits index 2 with index 1 at
radius ≥ 2. -/
theorem c5_radius_termination_witness :
    ((0:ℚ) < 1/2 ∧ (1/2:ℚ) < 1 ∧ (0:ℚ) < 1 ∧
        (1:ℚ) * (1/2) ^ (0 + 1) < 1 * (1/2) ^ 0) ∧
      ((0:ℚ) < 3 ∧ (3:ℚ) * SPACING_V2 ^ (0 + 1) < 3 * SPACING_V2 ^ 0) ∧
      (exNormCfg.motion_mode ≠ 4 ∧ 2 ∈ visited exNormCfg exEnv ∧ 1 < 2 ∧
        ¬ layerRadius exNormCfg exEnv 1 < 2) ∧
      (2 ∈ visitedV1 300 3 ∧ 1 < 2 ∧ ¬ layerRadiusV1 300 1 < 2) := by
  have h := c5_radius_termination
  have hmem2 : 2 ∈ visited exNormCfg exEnv := by
    norm_num [visited, visitAux, strobeSkip, layerRadius, exNormCfg, exEnv, SPACING_V2]
  have hmemV1 : 2 ∈ visitedV1 300 3 := by
    norm_num [visitedV1, visitAuxV1, layerRadiusV1, SPACING_V1]
  refine ⟨⟨by norm_num, by norm_num, by norm_num,
      h.1 (1/2) 1 (by norm_num) (by norm_num) (by norm_num) 0⟩,
    ⟨by norm_num, h.2.1 3 (by norm_num) 0⟩,
    ⟨by decide, hmem2, by norm_num,
      h.2.2.1 exNormCfg exEnv (by decide) 2 hmem2 1 (by norm_num)⟩,
    ⟨hmemV1, by norm_num, h.2.2.2 300 3 2 hmemV1 1 (by norm_num)⟩⟩

end Fog

namespace Fog

/-- A `getD` read is either a list member or the fallback. -/
theorem getD_mem_or {α : Type} (l : List α) (n : Nat) (d : α) :
    l.getD n d ∈ l ∨ l.getD n d = d := by
  induction l generalizing n with
  | nil => right; rfl
  | cons a t ih =>
    cases n with
    | zero => left; simp
    | succ m =>
      rcases ih m with h | h
      · left
        rw [List.getD_cons_succ]
        exact List.mem_cons_of_mem a h
      · right
        rw [List.getD_cons_succ]
        exact h

/-- The fallback snapshot satisfies the bounds invariant. -/
theorem configOK_cfg0 : configOK cfg0 := by
  norm_num [configOK, paramsOK, knobOK, cfg0, config, get_state, initState, params0, MAX_LAYERS]

/-- The knob-increment clamp keeps a well-formed knob in range. -/
theorem knobOK_up (k : Knob) (h : knobOK k) :
    knobOK { k with val := min k.max (k.val + k.step) } := by
  obtain ⟨h1, h2, h3, h4⟩ := h
  exact ⟨h1, h2, le_min h1 (by linarith), min_le_left _ _⟩

/-- The knob-decrement clamp keeps a well-formed knob in range. -/
theorem knobOK_down (k : Knob) (h : knobOK k) :
    knobOK { k with val := max k.min (k.val - k.step) } := by
  obtain ⟨h1, h2, h3, h4⟩ := h
  exact ⟨h1, h2, le_max_left _ _, max_le h1 (by linarith)⟩

/-- Incrementing the selected knob preserves the knob-table invariant. -/
theorem paramsOK_up (p : Params) (id : KnobId) (h : paramsOK p) :
    paramsOK (setParam p id
      { getParam p id with
        val := min (getParam p id).max ((getParam p id).val + (getParam p id).step) }) := by
  obtain ⟨h1, h2, h3, h4, h5, h6, h7⟩ := h
  cases id with
  | parallax => exact ⟨knobOK_up _ h1, h2, h3, h4, h5, h6, h7⟩
  | breathing => exact ⟨h1, knobOK_up _ h2, h3, h4, h5, h6, h7⟩
  | color_mode => exact ⟨h1, h2, knobOK_up _ h3, h4, h5, h6, h7⟩
  | motion_mode => exact ⟨h1, h2, h3, knobOK_up _ h4, h5, h6, h7⟩
  | trails => exact ⟨h1, h2, h3, h4, knobOK_up _ h5, h6, h7⟩
  | physics => exact ⟨h1, h2, h3, h4, h5, knobOK_up _ h6, h7⟩
  | chaos => exact ⟨h1, h2, h3, h4, h5, h6, knobOK_up _ h7⟩

/-- Decrementing the selected knob preserves the knob-table invariant. -/
theorem paramsOK_down (p : Params) (id : KnobId) (h : paramsOK p) :
    paramsOK (setParam p id
      { getParam p id with
        val := max (getParam p id).min ((getParam p id).val - (getParam p id).step) }) := by
  obtain ⟨h1, h2, h3, h4, h5, h6, h7⟩ := h
  cases id with
  | parallax => exact ⟨knobOK_down _ h1, h2, h3, h4, h5, h6, h7⟩
  | breathing => exact ⟨h1, knobOK_down _ h2, h3, h4, h5, h6, h7⟩
  | color_mode => exact ⟨h1, h2, knobOK_down _ h3, h4, h5, h6, h7⟩
  | motion_mode => exact ⟨h1, h2, h3, knobOK_down _ h4, h5, h6, h7⟩
  | trails => exact ⟨h1, h2, h3, h4, knobOK_down _ h5, h6, h7⟩
  | physics => exact ⟨h1, h2, h3, h4, h5, knobOK_down _ h6, h7⟩
  | chaos => exact ⟨h1, h2, h3, h4, h5, h6, knobOK_down _ h7⟩

/-- Every input event preserves the bounds invariant. -/
theorem boundsInv_step (s : State) (e : Event) (h : boundsInv s) : boundsInv (step e s) := by
  obtain ⟨⟨hp, hn1, hn2, ht1, ht2⟩, hw⟩ := h
  have hn2' : s.num_layers ≤ 60 := hn2
  have ht2' : s.thickness ≤ 40 := ht2
  cases e with
  | keyJ =>
    refine ⟨⟨hp, hn1, hn2, ht1, ht2⟩, ?_⟩
    intro w hwm
    rcases List.mem_append.mp hwm with h' | h'
    · exact hw w h'
    · have hww : w = get_state s := by simpa using h'
      rw [hww]; exact ⟨hp, hn1, hn2, ht1, ht2⟩
  | keyH =>
    simp only [step]
    split
    · refine ⟨⟨hp, hn1, hn2, ht1, ht2⟩, ?_⟩
      intro w hwm
      rcases List.mem_or_eq_of_mem_set hwm with h' | h'
      · exact hw w h'
      · rw [h']; exact ⟨hp, hn1, hn2, ht1, ht2⟩
    · exact ⟨⟨hp, hn1, hn2, ht1, ht2⟩, hw⟩
  | keyK =>
    simp only [step]
    split
    · exact ⟨⟨hp, hn1, hn2, ht1, ht2⟩, hw⟩
    · refine ⟨?_, hw⟩
      rw [config_set_state]
      rcases getD_mem_or s.waypoints _ cfg0 with h' | h'
      · exact hw _ h'
      · rw [h']; exact configOK_cfg0
  | keyL =>
    simp only [step]
    split
    · exact ⟨⟨hp, hn1, hn2, ht1, ht2⟩, hw⟩
    · refine ⟨?_, hw⟩
      rw [config_set_state]
      rcases getD_mem_or s.waypoints _ cfg0 with h' | h'
      · exact hw _ h'
      · rw [h']; exact configOK_cfg0
  | keyG =>
    simp only [step]
    split
    · exact ⟨⟨hp, hn1, hn2, ht1, ht2⟩, hw⟩
    · split
      · refine ⟨?_, ?_⟩
        · rw [config_set_state]
          rcases getD_mem_or s.waypoints.dropLast _ cfg0 with h' | h'
          · exact hw _ ((List.dropLast_prefix s.waypoints).subset h')
          · rw [h']; exact configOK_cfg0
        · intro w hwm
          exact hw w ((List.dropLast_prefix s.waypoints).subset hwm)
      · refine ⟨⟨hp, hn1, hn2, ht1, ht2⟩, ?_⟩
        intro w hwm
        exact hw w ((List.dropLast_prefix s.waypoints).subset hwm)
  | key1 =>
    exact ⟨⟨hp, (by norm_num : (1:ℕ) ≤ 20), (by norm_num : (20:ℕ) ≤ 60), ht1, ht2⟩, hw⟩
  | key2 =>
    exact ⟨⟨hp, (by norm_num : (1:ℕ) ≤ 15), (by norm_num : (15:ℕ) ≤ 60), ht1, ht2⟩, hw⟩
  | key3 =>
    exact ⟨⟨hp, (by norm_num : (1:ℕ) ≤ 12), (by norm_num : (12:ℕ) ≤ 60), ht1, ht2⟩, hw⟩
  | key4 =>
    exact ⟨⟨hp, (by norm_num : (1:ℕ) ≤ 25), (by norm_num : (25:ℕ) ≤ 60), ht1, ht2⟩, hw⟩
  | key5 =>
    exact ⟨⟨hp, (by norm_num : (1:ℕ) ≤ 16), (by norm_num : (16:ℕ) ≤ 60), ht1, ht2⟩, hw⟩
  | keyQ =>
    exact ⟨⟨hp, (by omega : 1 ≤ max 1 (s.num_layers - 1)),
      (by omega : max 1 (s.num_layers - 1) ≤ 60), ht1, ht2⟩, hw⟩
  | keyW =>
    exact ⟨⟨hp, (by omega : 1 ≤ min 60 (s.num_layers + 1)),
      (by omega : min 60 (s.num_layers + 1) ≤ 60), ht1, ht2⟩, hw⟩
  | keyA =>
    exact ⟨⟨hp, hn1, hn2, (by omega : 1 ≤ max 1 (s.thickness - 1)),
      (by omega : max 1 (s.thickness - 1) ≤ 40)⟩, hw⟩
  | keyS =>
    exact ⟨⟨hp, hn1, hn2, (by omega : 1 ≤ min 40 (s.thickness + 1)),
      (by omega : min 40 (s.thickness + 1) ≤ 40)⟩, hw⟩
  | knobUp =>
    exact ⟨⟨paramsOK_up s.params s.last_toggled hp, hn1, hn2, ht1, ht2⟩, hw⟩
  | knobDown =>
    exact ⟨⟨paramsOK_down s.params s.last_toggled hp, hn1, hn2, ht1, ht2⟩, hw⟩
  | _ =>
    exact ⟨⟨hp, hn1, hn2, ht1, ht2⟩, hw⟩

/-- Folding any event list preserves an invariant preserved by single
steps. -/
theorem inv_foldl {Inv : State → Prop} (hstep : ∀ s e, Inv s → Inv (step e s)) :
    ∀ (evs : List Event) (s : State), Inv s → Inv (applyEvents s evs) := by
  intro evs
  induction evs with
  | nil => intro s h; exact h
  | cons e t ih => intro s h; exact ih (step e s) (hstep s e h)

end Fog

namespace FogV1

/-- Every v1 input event preserves the v1 bounds invariant. -/
theorem boundsInvV1_step (s : StateV1) (e : EventV1) (h : boundsInvV1 s) :
    boundsInvV1 (stepV1 e s) := by
  obtain ⟨h1, h2, h3, h4, h5⟩ := h
  have h2' : s.num_layers ≤ 50 := h2
  cases e with
  | keyQ =>
    exact ⟨(by omega : 1 ≤ max 1 (s.num_layers - 1)),
      (by omega : max 1 (s.num_layers - 1) ≤ 50), h3, h4, h5⟩
  | keyW =>
    exact ⟨(by omega : 1 ≤ min 50 (s.num_layers + 1)),
      (by omega : min 50 (s.num_layers + 1) ≤ 50), h3, h4, h5⟩
  | keyA =>
    exact ⟨h1, h2, (by omega : 1 ≤ max 1 (s.thickness - 1)),
      (by omega : max 1 (s.thickness - 1) ≤ 50), h5⟩
  | keyS =>
    exact ⟨h1, h2, (by omega : 1 ≤ min 50 (s.thickness + 1)),
      (by omega : min 50 (s.thickness + 1) ≤ 50), h5⟩
  | speedUp =>
    exact ⟨h1, h2, h3, h4, (by linarith [show (0:ℚ) ≤ 0.0001 by norm_num] :
      (0:ℚ) ≤ s.color_speed + 0.0001)⟩
  | speedDown =>
    exact ⟨h1, h2, h3, h4, le_max_left 0 (s.color_speed - 0.0001)⟩
  | _ => exact ⟨h1, h2, h3, h4, h5⟩

/-- Folding any v1 event list preserves the v1 bounds invariant. -/
theorem boundsInvV1_foldl :
    ∀ (evs : List EventV1) (s : StateV1), boundsInvV1 s → boundsInvV1 (applyEventsV1 s evs) := by
  intro evs
  induction evs with
  | nil => intro s h; exact h
  | cons e t ih => intro s h; exact ih (stepV1 e s) (boundsInvV1_step s e h)

end FogV1

namespace Fog

/-- C8, confirmed: every user adjustment saturates to declared bounds.
Starting from any state whose knob values, layer count and thickness are
within their declared bounds (live and in every stored waypoint), any
sequence of input events — knob increments/decrements, layer and
thickness keys, toggles, presets and waypoint operations — keeps every
knob within its declared `[min, max]`, the layer count within
`[1, MAX_LAYERS]` and the thickness within its declared bounds, in both
the v2 and the v1 program. -/
theorem c8_clamp_invariant :
    (∀ (s : State) (evs : List Event), boundsInv s → boundsInv (applyEvents s evs)) ∧
      (∀ (s : FogV1.StateV1) (evs : List FogV1.EventV1),
        FogV1.boundsInvV1 s → FogV1.boundsInvV1 (FogV1.applyEventsV1 s evs)) :=
  ⟨fun s evs h => inv_foldl boundsInv_step evs s h,
    fun s evs h => FogV1.boundsInvV1_foldl evs s h⟩

/-- Witness for `c8_clamp_invariant`: the initial states of both programs
are within bounds and stay so under a concrete event sequence. -/
theorem c8_clamp_invariant_witness :
    boundsInv initState ∧ FogV1.boundsInvV1 FogV1.exV1 ∧
      boundsInv (applyEvents initState [Event.knobUp, Event.keyW, Event.keyJ]) ∧
      FogV1.boundsInvV1
        (FogV1.applyEventsV1 FogV1.exV1 [FogV1.EventV1.speedDown, FogV1.EventV1.keyQ]) := by
  have h1 : boundsInv initState := by
    norm_num [boundsInv, configOK, paramsOK, knobOK, config, get_state, initState, params0,
      MAX_LAYERS]
  have h2 : FogV1.boundsInvV1 FogV1.exV1 := by
    norm_num [FogV1.boundsInvV1, FogV1.exV1, FogV1.MAX_LAYERS]
  exact ⟨h1, h2, c8_clamp_invariant.1 initState _ h1, c8_clamp_invariant.2 FogV1.exV1 _ h2⟩

end Fog

namespace Fog

/-- The fallback snapshot has a valid shape index. -/
theorem shapeOK_cfg0 : shapeOK cfg0 := by decide

/-- Every input event preserves the shape-selector invariant. -/
theorem shapeInv_step (s : State) (e : Event) (h : shapeInv s) : shapeInv (step e s) := by
  obtain ⟨⟨h1, h2⟩, hw⟩ := h
  cases e with
  | shapeDec =>
    exact ⟨⟨Int.emod_nonneg _ (by decide), Int.emod_lt_of_pos _ (by decide)⟩, hw⟩
  | shapeInc =>
    exact ⟨⟨Int.emod_nonneg _ (by decide), Int.emod_lt_of_pos _ (by decide)⟩, hw⟩
  | key1 => exact ⟨⟨(by decide : (0:ℤ) ≤ 9), (by decide : (9:ℤ) < 14)⟩, hw⟩
  | key2 => exact ⟨⟨(by decide : (0:ℤ) ≤ 8), (by decide : (8:ℤ) < 14)⟩, hw⟩
  | key3 => exact ⟨⟨(by decide : (0:ℤ) ≤ 4), (by decide : (4:ℤ) < 14)⟩, hw⟩
  | key4 => exact ⟨⟨(by decide : (0:ℤ) ≤ 3), (by decide : (3:ℤ) < 14)⟩, hw⟩
  | key5 => exact ⟨⟨(by decide : (0:ℤ) ≤ 0), (by decide : (0:ℤ) < 14)⟩, hw⟩
  | keyJ =>
    refine ⟨⟨h1, h2⟩, ?_⟩
    intro w hwm
    rcases List.mem_append.mp hwm with h' | h'
    · exact hw w h'
    · have hww : w = get_state s := by simpa using h'
      rw [hww]; exact ⟨h1, h2⟩
  | keyH =>
    simp only [step]
    split
    · refine ⟨⟨h1, h2⟩, ?_⟩
      intro w hwm
      rcases List.mem_or_eq_of_mem_set hwm with h' | h'
      · exact hw w h'
      · rw [h']; exact ⟨h1, h2⟩
    · exact ⟨⟨h1, h2⟩, hw⟩
  | keyK =>
    simp only [step]
    split
    · exact ⟨⟨h1, h2⟩, hw⟩
    · refine ⟨?_, hw⟩
      rw [config_set_state]
      rcases getD_mem_or s.waypoints _ cfg0 with h' | h'
      · exact hw _ h'
      · rw [h']; exact shapeOK_cfg0
  | keyL =>
    simp only [step]
    split
    · exact ⟨⟨h1, h2⟩, hw⟩
    · refine ⟨?_, hw⟩
      rw [config_set_state]
      rcases getD_mem_or s.waypoints _ cfg0 with h' | h'
      · exact hw _ h'
      · rw [h']; exact shapeOK_cfg0
  | keyG =>
    simp only [step]
    split
    · exact ⟨⟨h1, h2⟩, hw⟩
    · split
      · refine ⟨?_, ?_⟩
        · rw [config_set_state]
          rcases getD_mem_or s.waypoints.dropLast _ cfg0 with h' | h'
          · exact hw _ ((List.dropLast_prefix s.waypoints).subset h')
          · rw [h']; exact shapeOK_cfg0
        · intro w hwm
          exact hw w ((List.dropLast_prefix s.waypoints).subset hwm)
      · refine ⟨⟨h1, h2⟩, ?_⟩
        intro w hwm
        exact hw w ((List.dropLast_prefix s.waypoints).subset hwm)
  | _ => exact ⟨⟨h1, h2⟩, hw⟩

/-- C10, confirmed: starting from the initial state, after any sequence
of shape-cycling keys, preset loads and waypoint operations the shape
selector is a valid index into the shape registry (live and in every
stored waypoint), so the per-frame `shapes[shape_index]` lookup is in
range; and the noise-ring seed lookup index `layer_idx % MAX_LAYERS` is
in range for every layer index. -/
theorem c10_shape_index_safe :
    ∀ evs : List Event,
      shapeInv (applyEvents initState evs) ∧
        (applyEvents initState evs).shape_index.toNat < shapes.length ∧
        ∀ li : Nat, noiseSeedIndex li < MAX_LAYERS := by
  intro evs
  have hinv : shapeInv (applyEvents initState evs) :=
    inv_foldl shapeInv_step evs initState (by decide)
  refine ⟨hinv, ?_, ?_⟩
  · have h1 : 0 ≤ (applyEvents initState evs).shape_index := hinv.1.1
    have h2 : (applyEvents initState evs).shape_index < 14 := hinv.1.2
    show (applyEvents initState evs).shape_index.toNat < 14
    omega
  · intro li
    show li % 60 < 60
    exact Nat.mod_lt li (by norm_num)

end Fog

namespace Fog

/-- C9, confirmed: under the freshness invariant (which holds initially
and is preserved by every operation), stored waypoint snapshots are
isolated from the live state: every in-place mutation of the live
feature dictionary or knob table, every feature-dict rebinding, Append,
UpdateCurrent and restore leaves the dictionary contents of every
surviving stored snapshot unchanged, and after every operation —
including restoring a snapshot — the live state's dictionaries still
share no heap cell with any stored snapshot (no aliasing is ever
created). -/
theorem c9_snapshot_isolation :
    ∀ (s : HState) (op : HOp), SnapFresh s →
      SnapFresh (hStep op s) ∧
        ∀ w ∈ s.waypoints, w ∈ (hStep op s).waypoints →
          snapContents (hStep op s) w = snapContents s w := by
  intro s op h
  obtain ⟨hf, hp, hws⟩ := h
  cases op with
  | mutFeat f =>
    refine ⟨⟨hf, hp, hws⟩, ?_⟩
    intro w hm hm2
    obtain ⟨hw1, hw2, hw3, hw4⟩ := hws w hm
    show (Function.update s.heap.feat s.featAddr _ w.featAddr, s.heap.par w.parAddr) =
      (s.heap.feat w.featAddr, s.heap.par w.parAddr)
    rw [Function.update_noteq hw3]
  | mutPar f =>
    refine ⟨⟨hf, hp, hws⟩, ?_⟩
    intro w hm hm2
    obtain ⟨hw1, hw2, hw3, hw4⟩ := hws w hm
    show (s.heap.feat w.featAddr, Function.update s.heap.par s.parAddr _ w.parAddr) =
      (s.heap.feat w.featAddr, s.heap.par w.parAddr)
    rw [Function.update_noteq hw4]
  | rebindFeat fs =>
    constructor
    · refine ⟨Nat.lt_succ_self _, hp, ?_⟩
      intro w hm
      obtain ⟨hw1, hw2, hw3, hw4⟩ := hws w hm
      exact ⟨(by omega : w.featAddr < s.heap.featNext + 1), hw2,
        (by omega : w.featAddr ≠ s.heap.featNext), hw4⟩
    · intro w hm hm2
      obtain ⟨hw1, hw2, hw3, hw4⟩ := hws w hm
      show (Function.update s.heap.feat s.heap.featNext _ w.featAddr, s.heap.par w.parAddr) =
        (s.heap.feat w.featAddr, s.heap.par w.parAddr)
      rw [Function.update_noteq (by omega : w.featAddr ≠ s.heap.featNext)]
  | append =>
    constructor
    · refine ⟨(by omega : s.featAddr < s.heap.featNext + 1),
        (by omega : s.parAddr < s.heap.parNext + 1), ?_⟩
      intro w hm
      rcases List.mem_append.mp hm with h' | h'
      · obtain ⟨hw1, hw2, hw3, hw4⟩ := hws w h'
        exact ⟨(by omega : w.featAddr < s.heap.featNext + 1),
          (by omega : w.parAddr < s.heap.parNext + 1), hw3, hw4⟩
      · have hww : w = (hGetState s).1 := by simpa using h'
        rw [hww]
        exact ⟨(by omega : s.heap.featNext < s.heap.featNext + 1),
          (by omega : s.heap.parNext < s.heap.parNext + 1),
          (by omega : s.heap.featNext ≠ s.featAddr),
          (by omega : s.heap.parNext ≠ s.parAddr)⟩
    · intro w hm hm2
      obtain ⟨hw1, hw2, hw3, hw4⟩ := hws w hm
      show (Function.update s.heap.feat s.heap.featNext _ w.featAddr,
            Function.update s.heap.par s.heap.parNext _ w.parAddr) =
        (s.heap.feat w.featAddr, s.heap.par w.parAddr)
      rw [Function.update_noteq (by omega : w.featAddr ≠ s.heap.featNext),
        Function.update_noteq (by omega : w.parAddr ≠ s.heap.parNext)]
  | updateCur i =>
    constructor
    · refine ⟨(by omega : s.featAddr < s.heap.featNext + 1),
        (by omega : s.parAddr < s.heap.parNext + 1), ?_⟩
      intro w hm
      rcases List.mem_or_eq_of_mem_set hm with h' | h'
      · obtain ⟨hw1, hw2, hw3, hw4⟩ := hws w h'
        exact ⟨(by omega : w.featAddr < s.heap.featNext + 1),
          (by omega : w.parAddr < s.heap.parNext + 1), hw3, hw4⟩
      · rw [h']
        exact ⟨(by omega : s.heap.featNext < s.heap.featNext + 1),
          (by omega : s.heap.parNext < s.heap.parNext + 1),
          (by omega : s.heap.featNext ≠ s.featAddr),
          (by omega : s.heap.parNext ≠ s.parAddr)⟩
    · intro w hm hm2
      obtain ⟨hw1, hw2, hw3, hw4⟩ := hws w hm
      show (Function.update s.heap.feat s.heap.featNext _ w.featAddr,
            Function.update s.heap.par s.heap.parNext _ w.parAddr) =
        (s.heap.feat w.featAddr, s.heap.par w.parAddr)
      rw [Function.update_noteq (by omega : w.featAddr ≠ s.heap.featNext),
        Function.update_noteq (by omega : w.parAddr ≠ s.heap.parNext)]
  | restore i =>
    cases hgi : s.waypoints.get? i with
    | none =>
      have hr : hStep (HOp.restore i) s = s := by
        show hRestore i s = s
        unfold hRestore
        rw [hgi]
      rw [hr]
      exact ⟨⟨hf, hp, hws⟩, fun w hm hm2 => rfl⟩
    | some w0 =>
      have hr : hStep (HOp.restore i) s =
          { s with
            shape_index := w0.shape_index
            num_layers := w0.num_layers
            thickness := w0.thickness
            twist := w0.twist
            hue := w0.hue
            heap := { feat := Function.update s.heap.feat s.heap.featNext (s.heap.feat w0.featAddr)
                      par := Function.update s.heap.par s.heap.parNext (s.heap.par w0.parAddr)
                      featNext := s.heap.featNext + 1
                      parNext := s.heap.parNext + 1 }
            featAddr := s.heap.featNext
            parAddr := s.heap.parNext } := by
        show hRestore i s = _
        unfold hRestore
        rw [hgi]
      rw [hr]
      constructor
      · refine ⟨Nat.lt_succ_self _, Nat.lt_succ_self _, ?_⟩
        intro w hm
        obtain ⟨hw1, hw2, hw3, hw4⟩ := hws w hm
        exact ⟨(by omega : w.featAddr < s.heap.featNext + 1),
          (by omega : w.parAddr < s.heap.parNext + 1),
          (by omega : w.featAddr ≠ s.heap.featNext),
          (by omega : w.parAddr ≠ s.heap.parNext)⟩
      · intro w hm hm2
        obtain ⟨hw1, hw2, hw3, hw4⟩ := hws w hm
        show (Function.update s.heap.feat s.heap.featNext _ w.featAddr,
              Function.update s.heap.par s.heap.parNext _ w.parAddr) =
          (s.heap.feat w.featAddr, s.heap.par w.parAddr)
        rw [Function.update_noteq (by omega : w.featAddr ≠ s.heap.featNext),
          Function.update_noteq (by omega : w.parAddr ≠ s.heap.parNext)]

/-- Witness for `c9_snapshot_isolation`: a state with one stored
waypoint at fresh addresses, under an Append. -/
theorem c9_snapshot_isolation_witness :
    SnapFresh exHState ∧
      (SnapFresh (hStep HOp.append exHState) ∧
        ∀ w ∈ exHState.waypoints, w ∈ (hStep HOp.append exHState).waypoints →
          snapContents (hStep HOp.append exHState) w = snapContents exHState w) :=
  ⟨by decide, c9_snapshot_isolation exHState HOp.append (by decide)⟩

end Fog
